import Mathlib

/-!
Shallow embedding of the simulation core of `src/scripts/game.js`
(a 2D arcade survival game: player, bullets, zombies, timed items).

Modelling conventions:
* JS `Date.now()` millisecond timestamps are `ℤ`; positions, sizes, health
  and multipliers are `ℚ` (all health/damage/score arithmetic in the source
  uses values that are exact in both binary floating point and `ℚ`).
* The transcendental parts of the source (`Math.atan2`/`cos`/`sin` used for
  bullet construction and zombie pursuit, and the `Math.sqrt` normalisation
  of the keyboard/joystick movement vector) do not influence any health,
  score, timing or collection-membership computation.  They are modelled as
  environment oracles (`Env.trig`, `Env.dir`) and as the per-tick effective
  displacement (`TickInput.moveX/moveY`); every theorem below quantifies
  over all oracle values, which over-approximates the concrete trig values.
* `Math.random()`-driven choices (zombie spawn edge and offset, item-drop
  rolls) are tick inputs (`spawnSide`, `spawnRoll`, `drops`).
* The source compares `Math.sqrt(dx^2+dy^2) < r`; for `s ≥ 0` this holds
  iff `0 < r ∧ s < r^2`, which is how `distLt` is defined (sqrt-free).
* DOM/audio/UI calls (`updateStatsDisplay`, `play*SFX`, message boxes,
  `requestAnimationFrame`) are external sinks with no effect on the
  simulation state and are omitted.
-/

namespace ZombieGame

/-! ### Configuration constants (game.js lines 16-33, 394) -/

def PLAYER_SIZE : ℚ := 20
def BULLET_SIZE : ℚ := 5
def BULLET_SPEED : ℚ := 10
def ZOMBIE_SIZE : ℚ := 25
def ZOMBIE_SPEED : ℚ := 3/2
def ZOMBIE_SPAWN_INTERVAL : ℤ := 1500
def MAX_HEALTH : ℚ := 100
def ZOMBIE_DAMAGE : ℚ := 10
def ITEM_SIZE : ℚ := 15
def UPGRADE_DURATION : ℤ := 10000
def ITEM_LIFETIME : ℤ := 15000
def DAMAGE_BOOST_MULTIPLIER : ℚ := 3/2
def ATTACK_DELAY : ℤ := 1000
def SPREAD : ℚ := 7/20

/-- `dist(x1,y1,x2,y2) < r` from game.js line 135-138 (Euclidean distance
compared against a radius sum).  `Math.sqrt s < r` for `s ≥ 0` is equivalent
to `0 < r ∧ s < r^2`; all call sites pass `r > 0`. -/
def distLt (x1 y1 x2 y2 r : ℚ) : Bool :=
  decide (0 < r ∧ (x2 - x1)^2 + (y2 - y1)^2 < r^2)

/-! ### Entity models -/

/-- Player (game.js lines 173-188).  `color` is render-only and dropped. -/
structure Player where
  x : ℚ
  y : ℚ
  size : ℚ
  health : ℚ
  lastShotTime : ℤ
  tripleShotEndTime : ℤ
  damageBoostEndTime : ℤ
  currentShotDelay : ℤ
  defaultShotDelay : ℤ
  bulletDamageMultiplier : ℚ
  deriving DecidableEq, Repr

/-- Bullet (game.js lines 318-326).  The constructor receives an angle and
stores velocity `(cos θ · BULLET_SPEED, sin θ · BULLET_SPEED)`; the angle
(the heading of the velocity) is kept as a field, the cos/sin values come
from the `Env.trig` oracle. -/
structure Bullet where
  x : ℚ
  y : ℚ
  size : ℚ
  angle : ℚ
  vx : ℚ
  vy : ℚ
  deriving DecidableEq, Repr

/-- Zombie (game.js lines 348-356, 393-394).  `lastAttackTime` is the JS
per-instance class field initialised to 0. -/
structure Zombie where
  x : ℚ
  y : ℚ
  size : ℚ
  initialHealth : ℚ
  health : ℚ
  lastAttackTime : ℤ
  deriving DecidableEq, Repr

/-- Item (game.js lines 411-418).  `type` is one of the strings
"triple_shot", "health_pack", "damage_boost" when produced by the drop
logic, but the field is an arbitrary string as in the source. -/
structure Item where
  x : ℚ
  y : ℚ
  size : ℚ
  type : String
  creationTime : ℤ
  deriving DecidableEq, Repr

/-- The whole mutable session state of game.js (module-level globals
`player`, `bullets`, `zombies`, `items`, `score`, `lastZombieSpawnTime`,
`isGameOver`). -/
structure GameState where
  player : Player
  bullets : List Bullet
  zombies : List Zombie
  items : List Item
  score : ℕ
  lastZombieSpawnTime : ℤ
  isGameOver : Bool
  deriving DecidableEq, Repr

/-- Environment: canvas dimensions plus the transcendental oracles.
`trig θ` stands for `(Math.cos θ, Math.sin θ)`; `dir zx zy px py` stands for
`(cos φ, sin φ)` with `φ = Math.atan2 (py − zy) (px − zx)` (zombie pursuit
direction, game.js lines 382-385). -/
structure Env where
  canvasWidth : ℚ
  canvasHeight : ℚ
  trig : ℚ → ℚ × ℚ
  dir : ℚ → ℚ → ℚ → ℚ → ℚ × ℚ

/-- Per-tick inputs: the clock, the aggregated input-device state (the spec
treats input aggregation as an external collaborator), and the outcomes of
the tick's `Math.random()` draws.  `drops k` is the item-drop roll consumed
by the `k`-th zombie kill of the tick: `none` when `Math.random() ≥ 0.5`,
`some i` for a successful roll with type index `i` into the source's
`itemTypes` array. -/
structure TickInput where
  now : ℤ
  moveX : ℚ
  moveY : ℚ
  isFiring : Bool
  aimAngle : ℚ
  spawnSide : ℕ
  spawnRoll : ℚ
  drops : ℕ → Option (Fin 3)

/-- The `itemTypes` array of game.js line 601. -/
def itemTypes (i : Fin 3) : String :=
  if i.val = 0 then "triple_shot" else if i.val = 1 then "health_pack" else "damage_boost"

/-! ### Player operations -/

/-- `Player.applyUpgrade` (game.js lines 262-277): `health_pack` restores 30
health clamped at `MAX_HEALTH`; `triple_shot` and `damage_boost` set their
end timestamps to `now + UPGRADE_DURATION` (`triple_shot` also sets the shot
delay immediately); any other type falls through every branch and changes
nothing. -/
def Player.applyUpgrade (p : Player) (type : String) (now : ℤ) : Player :=
  if type = "health_pack" then
    { p with health := min MAX_HEALTH (p.health + 30) }
  else if type = "triple_shot" then
    { p with tripleShotEndTime := now + UPGRADE_DURATION, currentShotDelay := 300 }
  else if type = "damage_boost" then
    { p with damageBoostEndTime := now + UPGRADE_DURATION }
  else
    p

/-- `Player._createBullet` (game.js lines 282-290): a bullet offset from the
player centre along `angle`, with velocity `(cos θ, sin θ) · BULLET_SPEED`. -/
def Player.createBullet (p : Player) (env : Env) (angle : ℚ) : Bullet :=
  let c := (env.trig angle).1
  let s := (env.trig angle).2
  { x := p.x + c * (p.size / 2 + 5)
    y := p.y + s * (p.size / 2 + 5)
    size := BULLET_SIZE
    angle := angle
    vx := c * BULLET_SPEED
    vy := s * BULLET_SPEED }

/-- `Player.shoot` (game.js lines 292-312): when the cooldown has elapsed,
append one bullet along the aim angle, or three bullets at
`aim − SPREAD, aim, aim + SPREAD` when triple-shot is active, and reset
`lastShotTime`. -/
def Player.shoot (p : Player) (env : Env) (aimAngle : ℚ) (now : ℤ)
    (bullets : List Bullet) : Player × List Bullet :=
  if now - p.lastShotTime > p.currentShotDelay then
    let tripleActive := p.tripleShotEndTime > now
    let bs :=
      if tripleActive then
        bullets ++ [p.createBullet env (aimAngle - SPREAD),
                    p.createBullet env aimAngle,
                    p.createBullet env (aimAngle + SPREAD)]
      else
        bullets ++ [p.createBullet env aimAngle]
    ({ p with lastShotTime := now }, bs)
  else
    (p, bullets)

/-- `Player.update` (game.js lines 214-257): apply the effective movement
displacement, clamp to the arena, recompute the derived shot delay and
damage multiplier from the end timestamps, then shoot if firing. -/
def Player.update (p : Player) (env : Env) (inp : TickInput)
    (bullets : List Bullet) : Player × List Bullet :=
  let x1 := p.x + inp.moveX
  let y1 := p.y + inp.moveY
  let p1 : Player :=
    { p with
      x := max (p.size / 2) (min (env.canvasWidth - p.size / 2) x1)
      y := max (p.size / 2) (min (env.canvasHeight - p.size / 2) y1)
      currentShotDelay := if p.tripleShotEndTime > inp.now then 300 else p.defaultShotDelay
      bulletDamageMultiplier :=
        if p.damageBoostEndTime > inp.now then DAMAGE_BOOST_MULTIPLIER else 1 }
  if inp.isFiring then p1.shoot env inp.aimAngle inp.now bullets else (p1, bullets)

/-! ### Bullet operations -/

/-- `Bullet.update` (game.js lines 335-338). -/
def Bullet.update (b : Bullet) : Bullet :=
  { b with x := b.x + b.vx, y := b.y + b.vy }

/-- `Bullet.isOffScreen` (game.js lines 340-342). -/
def Bullet.isOffScreen (b : Bullet) (w h : ℚ) : Bool :=
  decide (b.x < 0) || decide (b.x > w) || decide (b.y < 0) || decide (b.y > h)

/-! ### Zombie operations -/

/-- Result of updating the zombie list: the moved zombies, the player after
any attacks, and whether `gameOver()` was invoked during the pass. -/
structure ZombieStep where
  zombie : Zombie
  player : Player
  gameOverCalled : Bool
  deriving DecidableEq, Repr

/-- `Zombie.update` + `Zombie.attackPlayer` (game.js lines 381-405): move
toward the player, then if in contact and the attack cooldown has elapsed,
subtract `ZOMBIE_DAMAGE` from the player's health and call `gameOver()` if
it drops to `≤ 0`. -/
def Zombie.update (z : Zombie) (env : Env) (now : ℤ) (p : Player) : ZombieStep :=
  let d := env.dir z.x z.y p.x p.y
  let z1 : Zombie := { z with x := z.x + d.1 * ZOMBIE_SPEED, y := z.y + d.2 * ZOMBIE_SPEED }
  if distLt z1.x z1.y p.x p.y (z1.size / 2 + p.size / 2) then
    if now - z1.lastAttackTime > ATTACK_DELAY then
      let p1 : Player := { p with health := p.health - ZOMBIE_DAMAGE }
      { zombie := { z1 with lastAttackTime := now }
        player := p1
        gameOverCalled := decide (p1.health ≤ 0) }
    else
      { zombie := z1, player := p, gameOverCalled := false }
  else
    { zombie := z1, player := p, gameOverCalled := false }

/-- `zombies.forEach(z => z.update())` (game.js line 565): sequential pass
threading the shared player health and the game-over flag. -/
def zombiesUpdate (env : Env) (now : ℤ) :
    List Zombie → Player → Bool → List Zombie × Player × Bool
  | [], p, go => ([], p, go)
  | z :: zs, p, go =>
    let st := z.update env now p
    let r := zombiesUpdate env now zs st.player (go || st.gameOverCalled)
    (st.zombie :: r.1, r.2)

/-! ### Spawning -/

/-- `spawnZombie` (game.js lines 525-544): a fresh zombie just outside the
edge selected by the tick's random draw (side 0 top, 1 right, 2 bottom,
otherwise left). -/
def spawnZombie (env : Env) (inp : TickInput) : Zombie :=
  let xy : ℚ × ℚ :=
    if inp.spawnSide = 0 then (inp.spawnRoll * env.canvasWidth, -ZOMBIE_SIZE)
    else if inp.spawnSide = 1 then (env.canvasWidth + ZOMBIE_SIZE, inp.spawnRoll * env.canvasHeight)
    else if inp.spawnSide = 2 then (inp.spawnRoll * env.canvasWidth, env.canvasHeight + ZOMBIE_SIZE)
    else (-ZOMBIE_SIZE, inp.spawnRoll * env.canvasHeight)
  { x := xy.1, y := xy.2, size := ZOMBIE_SIZE, initialHealth := 30, health := 30,
    lastAttackTime := 0 }

/-- The spawn interval of game.js lines 554-555:
`ZOMBIE_SPAWN_INTERVAL − Math.min(score * 8, 1000)`. -/
def spawnInterval (score : ℕ) : ℤ :=
  ZOMBIE_SPAWN_INTERVAL - min ((score : ℤ) * 8) 1000

/-- Phase 1 of `updateGame` (game.js lines 552-560): spawn one zombie and
reset the spawn timestamp when `now − lastZombieSpawnTime` exceeds the
current spawn interval. -/
def spawnPhase (env : Env) (inp : TickInput) (s : GameState) : List Zombie × ℤ :=
  if inp.now - s.lastZombieSpawnTime > spawnInterval s.score then
    (s.zombies ++ [spawnZombie env inp], inp.now)
  else
    (s.zombies, s.lastZombieSpawnTime)

/-! ### Item phase -/

/-- Phase 3 of `updateGame` (game.js lines 569-584): one ordered pass over
the items; an item whose elapsed time strictly exceeds `ITEM_LIFETIME` is
dropped before the collection test, an item in contact with the player is
collected (`applyUpgrade`) and dropped, anything else is kept. -/
def itemPhase (now : ℤ) (p : Player) : List Item → Player × List Item
  | [] => (p, [])
  | it :: rest =>
    if now - it.creationTime > ITEM_LIFETIME then
      itemPhase now p rest
    else if distLt p.x p.y it.x it.y (p.size / 2 + it.size / 2) then
      itemPhase now (p.applyUpgrade it.type now) rest
    else
      ((itemPhase now p rest).1, it :: (itemPhase now p rest).2)

/-! ### Bullet–zombie collision phase -/

/-- The item-drop block of game.js lines 598-607, consuming the `k`-th drop
roll of the tick. -/
def dropItem (drops : ℕ → Option (Fin 3)) (k : ℕ) (now : ℤ) (z : Zombie)
    (its : List Item) : List Item :=
  match drops k with
  | none => its
  | some i =>
    its ++ [{ x := z.x, y := z.y, size := ITEM_SIZE, type := itemTypes i,
              creationTime := now }]

/-- Result of testing one bullet against the zombie list. -/
structure HitPass where
  zombies : List Zombie
  hit : Bool
  score : ℕ
  items : List Item
  kills : ℕ
  deriving DecidableEq, Repr

/-- The inner `zombies.filter` of game.js lines 589-615 for one bullet:
every zombie in contact takes `10 * mult` damage; a zombie driven to
`health ≤ 0` is removed, awards 10 score and may drop an item (the `hit`
flag is NOT set on this branch, exactly as in the source); a surviving hit
zombie sets `hit` and is kept. -/
def bulletPass (mult : ℚ) (now : ℤ) (drops : ℕ → Option (Fin 3)) (b : Bullet) :
    List Zombie → Bool → ℕ → List Item → ℕ → HitPass
  | [], hit, sc, its, k => { zombies := [], hit := hit, score := sc, items := its, kills := k }
  | z :: zs, hit, sc, its, k =>
    if distLt b.x b.y z.x z.y (b.size / 2 + z.size / 2) then
      if z.health - 10 * mult ≤ 0 then
        bulletPass mult now drops b zs hit (sc + 10) (dropItem drops k now z its) (k + 1)
      else
        let r := bulletPass mult now drops b zs true sc its k
        { r with zombies := { z with health := z.health - 10 * mult } :: r.zombies }
    else
      let r := bulletPass mult now drops b zs hit sc its k
      { r with zombies := z :: r.zombies }

/-- Result of the whole collision phase. -/
structure ColPass where
  bullets : List Bullet
  zombies : List Zombie
  score : ℕ
  items : List Item
  kills : ℕ
  deriving DecidableEq, Repr

/-- Phase 4 of `updateGame` (game.js lines 586-617): the outer
`bullets.filter`; each bullet runs `bulletPass` against the current zombie
list and is kept iff its `hit` flag stayed false and it is on screen. -/
def collisionPhase (mult : ℚ) (now : ℤ) (w h : ℚ) (drops : ℕ → Option (Fin 3)) :
    List Bullet → List Zombie → ℕ → List Item → ℕ → ColPass
  | [], zs, sc, its, k =>
    { bullets := [], zombies := zs, score := sc, items := its, kills := k }
  | b :: bs, zs, sc, its, k =>
    let r := bulletPass mult now drops b zs false sc its k
    let r2 := collisionPhase mult now w h drops bs r.zombies r.score r.items r.kills
    { r2 with
      bullets :=
        if r.hit = false && b.isOffScreen w h = false then b :: r2.bullets else r2.bullets }

/-! ### The simulation tick and session reset -/

/-- `updateGame` (game.js lines 549-623): early return when game over, then
the five ordered phases — spawn, entity advance (player, bullets, zombies),
item resolution, bullet–zombie collision, terminal check. -/
def updateGame (env : Env) (inp : TickInput) (s : GameState) : GameState :=
  if s.isGameOver then s else
  let sp := spawnPhase env inp s
  let pu := s.player.update env inp s.bullets
  let bullets2 := pu.2.map Bullet.update
  let zu := zombiesUpdate env inp.now sp.1 pu.1 false
  let ip := itemPhase inp.now zu.2.1 s.items
  let col := collisionPhase ip.1.bulletDamageMultiplier inp.now
    env.canvasWidth env.canvasHeight inp.drops bullets2 zu.1 s.score ip.2 0
  { player := ip.1
    bullets := col.bullets
    zombies := col.zombies
    items := col.items
    score := col.score
    lastZombieSpawnTime := sp.2
    isGameOver := zu.2.2 || decide (ip.1.health ≤ 0) }

/-- The fresh player of `initGame` (game.js line 701 with the constructor of
lines 174-188): arena centre, full health, all timers and multipliers at
their defaults. -/
def initPlayer (w h : ℚ) : Player :=
  { x := w / 2, y := h / 2, size := PLAYER_SIZE, health := MAX_HEALTH,
    lastShotTime := 0, tripleShotEndTime := 0, damageBoostEndTime := 0,
    currentShotDelay := 200, defaultShotDelay := 200, bulletDamageMultiplier := 1 }

/-- `initGame` (game.js lines 691-718) as a transition on the session
state: the previous state is discarded wholesale (the source overwrites
every simulation global; input-state and DOM resets are external). -/
def initGame (env : Env) (_s : GameState) : GameState :=
  { player := initPlayer env.canvasWidth env.canvasHeight
    bullets := []
    zombies := []
    items := []
    score := 0
    lastZombieSpawnTime := 0
    isGameOver := false }

/-! ### Concrete fixtures used by the closed instances below -/

/-- A concrete environment: the 800×800 canvas with trivial trig oracles
(the closed scenarios below never depend on the oracle values). -/
def envW : Env :=
  { canvasWidth := 800, canvasHeight := 800,
    trig := fun _ => (1, 0), dir := fun _ _ _ _ => (1, 0) }

/-- The drop oracle of a tick in which every `Math.random()` drop roll fails. -/
def noDrops : ℕ → Option (Fin 3) := fun _ => none

/-- A bullet sitting at (100,100); zero velocity keeps the closed scenarios
independent of the bullet-advance step. -/
def bW : Bullet := { x := 100, y := 100, size := 5, angle := 0, vx := 0, vy := 0 }

/-- A zombie at (100,100) with the given remaining health. -/
def zH (h : ℚ) : Zombie :=
  { x := 100, y := 100, size := 25, initialHealth := 30, health := h, lastAttackTime := 0 }

/-- A freshly constructed player at (100,100) on the 800×800 canvas. -/
def pW : Player :=
  { initPlayer 800 800 with x := 100, y := 100 }

/-! ### Helper lemmas -/

theorem applyUpgrade_mult (p : Player) (t : String) (now : ℤ) :
    (p.applyUpgrade t now).bulletDamageMultiplier = p.bulletDamageMultiplier := by
  unfold Player.applyUpgrade
  split
  · rfl
  · split
    · rfl
    · split <;> rfl

theorem applyUpgrade_health_le (p : Player) (t : String) (now : ℤ)
    (h : p.health ≤ MAX_HEALTH) :
    (p.applyUpgrade t now).health ≤ MAX_HEALTH := by
  unfold Player.applyUpgrade
  split
  · exact min_le_left _ _
  · split
    · exact h
    · split <;> exact h

theorem shoot_fst_health (p : Player) (env : Env) (a : ℚ) (now : ℤ) (bs : List Bullet) :
    (p.shoot env a now bs).1.health = p.health := by
  unfold Player.shoot
  split <;> rfl

theorem shoot_fst_mult (p : Player) (env : Env) (a : ℚ) (now : ℤ) (bs : List Bullet) :
    (p.shoot env a now bs).1.bulletDamageMultiplier = p.bulletDamageMultiplier := by
  unfold Player.shoot
  split <;> rfl

theorem update_fst_health (p : Player) (env : Env) (inp : TickInput) (bs : List Bullet) :
    (p.update env inp bs).1.health = p.health := by
  cases hf : inp.isFiring with
  | false => simp [Player.update, hf]
  | true => simp [Player.update, hf, shoot_fst_health]

theorem update_fst_mult (p : Player) (env : Env) (inp : TickInput) (bs : List Bullet) :
    (p.update env inp bs).1.bulletDamageMultiplier =
      if p.damageBoostEndTime > inp.now then DAMAGE_BOOST_MULTIPLIER else 1 := by
  cases hf : inp.isFiring with
  | false => simp [Player.update, hf]
  | true => simp [Player.update, hf, shoot_fst_mult]

theorem zombieStep_health_le (z : Zombie) (env : Env) (now : ℤ) (p : Player) :
    (z.update env now p).player.health ≤ p.health := by
  unfold Zombie.update
  dsimp only
  split
  · split
    · show p.health - ZOMBIE_DAMAGE ≤ p.health
      unfold ZOMBIE_DAMAGE
      linarith
    · exact le_refl _
  · exact le_refl _

theorem zombiesUpdate_health_le (env : Env) (now : ℤ) :
    ∀ (zs : List Zombie) (p : Player) (go : Bool),
      (zombiesUpdate env now zs p go).2.1.health ≤ p.health := by
  intro zs
  induction zs with
  | nil => intro p go; exact le_refl _
  | cons z zs ih =>
    intro p go
    exact le_trans (ih _ _) (zombieStep_health_le z env now p)

theorem itemPhase_fst_mult (now : ℤ) :
    ∀ (its : List Item) (p : Player),
      (itemPhase now p its).1.bulletDamageMultiplier = p.bulletDamageMultiplier := by
  intro its
  induction its with
  | nil => intro p; rfl
  | cons it rest ih =>
    intro p
    unfold itemPhase
    split
    · exact ih p
    · split
      · rw [ih, applyUpgrade_mult]
      · exact ih p

theorem itemPhase_fst_health_le (now : ℤ) :
    ∀ (its : List Item) (p : Player), p.health ≤ MAX_HEALTH →
      (itemPhase now p its).1.health ≤ MAX_HEALTH := by
  intro its
  induction its with
  | nil => intro p h; exact h
  | cons it rest ih =>
    intro p h
    unfold itemPhase
    split
    · exact ih p h
    · split
      · exact ih _ (applyUpgrade_health_le _ _ _ h)
      · exact ih p h

/-! ### Claim theorems -/

/-- Claim C1 (code evaluation at the failing input).  The source's
bullet–zombie pass sets the `hit` flag only in the non-lethal branch
(game.js line 611 is unreachable from the kill branch at line 609), so:
(1) a bullet whose only hit kills the zombie is retained, not consumed;
(2) after killing one zombie the same bullet goes on to damage a second
overlapping zombie in the same tick; (3) even a non-lethal first hit does
not stop the pass — a bullet overlapping two full-health zombies damages
both.  Each conjunct evaluates `collisionPhase` (multiplier 1, i.e. base
damage 10) at a concrete input contradicting the claim that a bullet is
consumed by its first hit and damages no further zombie. -/
theorem claim1_bullet_consumption_eval :
    (collisionPhase 1 0 800 800 noDrops [bW] [zH 10] 0 [] 0 =
      { bullets := [bW], zombies := [], score := 10, items := [], kills := 1 })
  ∧ (collisionPhase 1 0 800 800 noDrops [bW] [zH 10, zH 30] 0 [] 0 =
      { bullets := [], zombies := [zH 20], score := 10, items := [], kills := 1 })
  ∧ (collisionPhase 1 0 800 800 noDrops [bW] [zH 30, zH 30] 0 [] 0 =
      { bullets := [], zombies := [zH 20, zH 20], score := 0, items := [], kills := 0 }) :=
  ⟨by with_unfolding_all rfl, by with_unfolding_all rfl, by with_unfolding_all rfl⟩

/-- Claim C5: with no damage boost (multiplier 1, base damage 10) a zombie
at health 30 survives the first two bullet hits at health 20 then 10, with
no score change; the third hit drives health to ≤ 0, removes the zombie
from the collection and awards exactly 10 score. -/
theorem claim5_three_hits_kill :
    (collisionPhase 1 0 800 800 noDrops [bW] [zH 30] 0 [] 0).zombies = [zH 20]
  ∧ (collisionPhase 1 0 800 800 noDrops [bW] [zH 30] 0 [] 0).score = 0
  ∧ (collisionPhase 1 0 800 800 noDrops [bW] [zH 20] 0 [] 0).zombies = [zH 10]
  ∧ (collisionPhase 1 0 800 800 noDrops [bW] [zH 20] 0 [] 0).score = 0
  ∧ (collisionPhase 1 0 800 800 noDrops [bW] [zH 10] 0 [] 0).zombies = []
  ∧ (collisionPhase 1 0 800 800 noDrops [bW] [zH 10] 0 [] 0).score = 10 :=
  ⟨by with_unfolding_all rfl, by with_unfolding_all rfl, by with_unfolding_all rfl,
   by with_unfolding_all rfl, by with_unfolding_all rfl, by with_unfolding_all rfl⟩

/-- Claim C9: `initGame` is idempotent — running the restart transition
twice in immediate succession yields exactly the state of running it once:
score 0, empty bullet/zombie/item collections, a fresh player at full
health (100) at the arena centre, spawn timer reset, game-over flag off. -/
theorem claim9_restart_idempotent (env : Env) (s : GameState) :
    initGame env (initGame env s) = initGame env s
  ∧ (initGame env s).score = 0
  ∧ (initGame env s).bullets = []
  ∧ (initGame env s).zombies = []
  ∧ (initGame env s).items = []
  ∧ (initGame env s).player.health = 100
  ∧ (initGame env s).player.x = env.canvasWidth / 2
  ∧ (initGame env s).player.y = env.canvasHeight / 2
  ∧ (initGame env s).lastZombieSpawnTime = 0
  ∧ (initGame env s).isGameOver = false :=
  ⟨rfl, rfl, rfl, rfl, rfl, rfl, rfl, rfl, rfl, rfl⟩

/-- Claim C10: `applyUpgrade` with any type outside
{health_pack, triple_shot, damage_boost} falls through every branch and is
a silent no-op: the whole player record (health, end timestamps, shot
delays, damage multiplier) is returned unchanged. -/
theorem claim10_unknown_upgrade_noop (p : Player) (t : String) (now : ℤ)
    (h1 : t ≠ "health_pack") (h2 : t ≠ "triple_shot") (h3 : t ≠ "damage_boost") :
    p.applyUpgrade t now = p := by
  unfold Player.applyUpgrade
  rw [if_neg h1, if_neg h2, if_neg h3]

/-- Witness for C10 at the concrete unknown type "speed_boost". -/
theorem claim10_witness :
    (("speed_boost" : String) ≠ "health_pack"
      ∧ ("speed_boost" : String) ≠ "triple_shot"
      ∧ ("speed_boost" : String) ≠ "damage_boost")
  ∧ pW.applyUpgrade "speed_boost" 0 = pW :=
  ⟨⟨by decide, by decide, by decide⟩,
   claim10_unknown_upgrade_noop pW "speed_boost" 0 (by decide) (by decide) (by decide)⟩

/-- An idle tick: clock at 1ms, no movement, not firing, all random rolls
trivial. -/
def inpIdle : TickInput :=
  { now := 1, moveX := 0, moveY := 0, isFiring := false, aimAngle := 0,
    spawnSide := 0, spawnRoll := 0, drops := noDrops }

/-- Claim C8: the spawn interval is `1500 − min(8·score, 1000)` ms,
equivalently `max (1500 − 8·score) 500`, so it decreases linearly with the
score and is bounded below by the 500 ms floor (reached exactly when the
capped maximum reduction of 1000 ms applies); the spawn phase adds one
zombie and resets the spawn timestamp precisely when
`now − lastZombieSpawnTime` exceeds this interval, and otherwise leaves the
zombie list and timestamp untouched. -/
theorem claim8_spawn_interval (score : ℕ) (env : Env) (inp : TickInput) (s : GameState) :
    spawnInterval score = 1500 - min (8 * (score : ℤ)) 1000
  ∧ spawnInterval score = max (1500 - 8 * (score : ℤ)) 500
  ∧ 500 ≤ spawnInterval score
  ∧ spawnInterval score ≤ 1500
  ∧ (spawnPhase env inp s).1.length =
      (if inp.now - s.lastZombieSpawnTime > spawnInterval s.score
       then s.zombies.length + 1 else s.zombies.length)
  ∧ (spawnPhase env inp s).2 =
      (if inp.now - s.lastZombieSpawnTime > spawnInterval s.score
       then inp.now else s.lastZombieSpawnTime) := by
  refine ⟨?_, ?_, ?_, ?_, ?_, ?_⟩
  · unfold spawnInterval ZOMBIE_SPAWN_INTERVAL
    omega
  · unfold spawnInterval ZOMBIE_SPAWN_INTERVAL
    omega
  · unfold spawnInterval ZOMBIE_SPAWN_INTERVAL
    omega
  · unfold spawnInterval ZOMBIE_SPAWN_INTERVAL
    omega
  · unfold spawnPhase
    split <;> simp
  · unfold spawnPhase
    split <;> rfl

/-- The expired-item counterexample fixture: an item created at time 0 far
away from the player `pW`. -/
def itE : Item := { x := 500, y := 500, size := 15, type := "damage_boost", creationTime := 0 }

/-- An item created at time 0 lying exactly on the player `pW`. -/
def itN : Item := { x := 100, y := 100, size := 15, type := "damage_boost", creationTime := 0 }

/-- Counterexample to claim C3 as stated: at a tick running exactly at
`t0 + lifetime` (here `now = 15000`, `creationTime = 0`) the remaining
lifetime `lifetime − (now − creationTime)` is `0 ≤ 0`, yet the item phase
keeps the item in the collection — the source removes an item only when the
elapsed time strictly exceeds `ITEM_LIFETIME` (game.js line 573 uses `>`). -/
theorem claim3_counterexample :
    ITEM_LIFETIME - ((15000 : ℤ) - itE.creationTime) ≤ 0
  ∧ (itemPhase 15000 pW [itE]).2 = [itE] :=
  ⟨by decide, by with_unfolding_all rfl⟩

/-- Claim C3 (amended): an item is removed, before the collection test, once
`now − creationTime` strictly exceeds `ITEM_LIFETIME` (remaining lifetime
strictly negative); at remaining lifetime exactly 0 it is still present for
that tick.  For an uncollectible (non-colliding) item the phase keeps it
exactly when not expired and never touches the player.  Concretely, the
item `itN` created at `t0 = 0` with lifetime 15000 is still present and
collectible at `t0 + 14999` (the colliding player collects it) and is
absent at `t0 + 15001`, where it is removed before any collection effect
(the colliding player is left unchanged). -/
theorem claim3_item_expiry (p : Player) (it : Item) (now : ℤ)
    (hfar : distLt p.x p.y it.x it.y (p.size / 2 + it.size / 2) = false) :
    ((itemPhase now p [it]).2 = if now - it.creationTime > ITEM_LIFETIME then [] else [it])
  ∧ (itemPhase now p [it]).1 = p
  ∧ (itemPhase 14999 pW [itN]).2 = []
  ∧ (itemPhase 14999 pW [itN]).1 = pW.applyUpgrade "damage_boost" 14999
  ∧ (itemPhase 15001 pW [itN]).2 = []
  ∧ (itemPhase 15001 pW [itN]).1 = pW := by
  refine ⟨?_, ?_, by with_unfolding_all rfl, by with_unfolding_all rfl,
    by with_unfolding_all rfl, by with_unfolding_all rfl⟩
  · by_cases hexp : now - it.creationTime > ITEM_LIFETIME
    · rw [if_pos hexp]
      unfold itemPhase
      rw [if_pos hexp]
      rfl
    · rw [if_neg hexp]
      unfold itemPhase
      rw [if_neg hexp, if_neg (by simp [hfar])]
      rfl
  · by_cases hexp : now - it.creationTime > ITEM_LIFETIME
    · unfold itemPhase
      rw [if_pos hexp]
      rfl
    · unfold itemPhase
      rw [if_neg hexp, if_neg (by simp [hfar])]
      rfl

/-- Witness for the amended C3 at a concrete non-colliding player and an
expired item. -/
theorem claim3_witness :
    distLt pW.x pW.y itE.x itE.y (pW.size / 2 + itE.size / 2) = false
  ∧ ((itemPhase 20000 pW [itE]).2 =
      if (20000 : ℤ) - itE.creationTime > ITEM_LIFETIME then [] else [itE]) :=
  ⟨by with_unfolding_all rfl, (claim3_item_expiry pW itE 20000 (by with_unfolding_all rfl)).1⟩

/-- Claim C6: collecting `damage_boost` at `collectionTime` sets
`damageBoostEndTime = collectionTime + UPGRADE_DURATION` (10000 ms); the
multiplier recomputed by the player update at any instant strictly before
that timestamp is `DAMAGE_BOOST_MULTIPLIER` (1.5), and at or after it is 1.
With the boost active each hit deals `10 × 1.5 = 15` damage, so a zombie at
health 30 survives the first hit at health 15 and is removed with the score
award on the second hit — exactly 2 hits. -/
theorem claim6_damage_boost_roundtrip (p : Player) (ct : ℤ) (env : Env) (inp : TickInput)
    (bs : List Bullet) :
    (p.applyUpgrade "damage_boost" ct).damageBoostEndTime = ct + UPGRADE_DURATION
  ∧ (inp.now < ct + UPGRADE_DURATION →
      ((p.applyUpgrade "damage_boost" ct).update env inp bs).1.bulletDamageMultiplier =
        DAMAGE_BOOST_MULTIPLIER)
  ∧ (ct + UPGRADE_DURATION ≤ inp.now →
      ((p.applyUpgrade "damage_boost" ct).update env inp bs).1.bulletDamageMultiplier = 1)
  ∧ (collisionPhase DAMAGE_BOOST_MULTIPLIER 0 800 800 noDrops [bW] [zH 30] 0 [] 0).zombies =
      [zH 15]
  ∧ (collisionPhase DAMAGE_BOOST_MULTIPLIER 0 800 800 noDrops [bW] [zH 30] 0 [] 0).score = 0
  ∧ (collisionPhase DAMAGE_BOOST_MULTIPLIER 0 800 800 noDrops [bW] [zH 15] 0 [] 0).zombies = []
  ∧ (collisionPhase DAMAGE_BOOST_MULTIPLIER 0 800 800 noDrops [bW] [zH 15] 0 [] 0).score = 10 := by
  have hend : (p.applyUpgrade "damage_boost" ct).damageBoostEndTime = ct + UPGRADE_DURATION := by
    with_unfolding_all rfl
  refine ⟨hend, ?_, ?_, by with_unfolding_all rfl, by with_unfolding_all rfl,
    by with_unfolding_all rfl, by with_unfolding_all rfl⟩
  · intro h
    rw [update_fst_mult, hend, if_pos (by omega)]
  · intro h
    rw [update_fst_mult, hend, if_neg (by omega)]

/-- Witness for C6: collecting at time 0 and querying the multiplier at the
concrete instant 1 (strictly before the end timestamp 10000). -/
theorem claim6_witness :
    ((1 : ℤ) < 0 + UPGRADE_DURATION)
  ∧ ((pW.applyUpgrade "damage_boost" 0).update envW inpIdle []).1.bulletDamageMultiplier =
      DAMAGE_BOOST_MULTIPLIER :=
  ⟨by decide, (claim6_damage_boost_roundtrip pW 0 envW inpIdle []).2.1 (by decide)⟩

/-- Claim C7: when the shot cooldown has elapsed, firing with triple-shot
active appends exactly the three bullets at headings
`aim − SPREAD, aim, aim + SPREAD` (SPREAD = 0.35 = 7/20 rad), and firing
without triple-shot appends exactly the one bullet along the aim angle; the
heading of a created bullet (the angle whose cosine/sine scale its
velocity) is the angle it was created with. -/
theorem claim7_shoot_spread (p : Player) (env : Env) (aim : ℚ) (now : ℤ) (bs : List Bullet)
    (hcool : now - p.lastShotTime > p.currentShotDelay) :
    (p.tripleShotEndTime > now →
      (p.shoot env aim now bs).2 =
        bs ++ [p.createBullet env (aim - SPREAD), p.createBullet env aim,
               p.createBullet env (aim + SPREAD)])
  ∧ (¬ p.tripleShotEndTime > now →
      (p.shoot env aim now bs).2 = bs ++ [p.createBullet env aim])
  ∧ (∀ θ : ℚ, (p.createBullet env θ).angle = θ)
  ∧ SPREAD = 7 / 20 := by
  refine ⟨?_, ?_, fun θ => rfl, rfl⟩
  · intro ht
    unfold Player.shoot
    rw [if_pos hcool]
    dsimp only
    rw [if_pos ht]
  · intro ht
    unfold Player.shoot
    rw [if_pos hcool]
    dsimp only
    rw [if_neg ht]

/-- A player with triple-shot active until timestamp 5000. -/
def pT : Player := { pW with tripleShotEndTime := 5000 }

/-- Witness for C7: the triple-shot player firing once at aim angle 0 at
time 1000 appends exactly 3 bullets with headings −7/20, 0, +7/20. -/
theorem claim7_witness :
    ((1000 : ℤ) - pT.lastShotTime > pT.currentShotDelay)
  ∧ (pT.tripleShotEndTime > (1000 : ℤ))
  ∧ (pT.shoot envW 0 1000 []).2 =
      [] ++ [pT.createBullet envW (0 - SPREAD), pT.createBullet envW 0,
             pT.createBullet envW (0 + SPREAD)]
  ∧ (pT.shoot envW 0 1000 []).2.map Bullet.angle = [-(7 / 20 : ℚ), 0, 7 / 20] :=
  ⟨by decide, by decide,
   (claim7_shoot_spread pT envW 0 1000 [] (by decide)).1 (by decide),
   by with_unfolding_all rfl⟩

/-- Claim C2: across any tick, the stored player health never exceeds
`MAX_HEALTH` (attacks only subtract; the health pack clamps at the
maximum), and whenever the tick ends without the game-over check having
triggered, the stored health is strictly positive — i.e. it is never below
the zero display floor except past the check that triggers game-over. -/
theorem claim2_health_bounds (env : Env) (inp : TickInput) (s : GameState)
    (hmax : s.player.health ≤ MAX_HEALTH) :
    (updateGame env inp s).player.health ≤ MAX_HEALTH
  ∧ ((updateGame env inp s).isGameOver = false → 0 < (updateGame env inp s).player.health) := by
  unfold updateGame
  split
  · exact ⟨hmax, fun hf => by simp_all⟩
  · constructor
    · show (itemPhase inp.now (zombiesUpdate env inp.now (spawnPhase env inp s).1
          (s.player.update env inp s.bullets).1 false).2.1 s.items).1.health ≤ MAX_HEALTH
      apply itemPhase_fst_health_le
      refine le_trans (zombiesUpdate_health_le env inp.now _ _ _) ?_
      rw [update_fst_health]
      exact hmax
    · intro hf
      have hf' : ((zombiesUpdate env inp.now (spawnPhase env inp s).1
          (s.player.update env inp s.bullets).1 false).2.2
          || decide ((itemPhase inp.now (zombiesUpdate env inp.now (spawnPhase env inp s).1
              (s.player.update env inp s.bullets).1 false).2.1 s.items).1.health ≤ 0)) = false :=
        hf
      have h2 := (Bool.or_eq_false_iff.mp hf').2
      have h3 := of_decide_eq_false h2
      show 0 < (itemPhase inp.now (zombiesUpdate env inp.now (spawnPhase env inp s).1
          (s.player.update env inp s.bullets).1 false).2.1 s.items).1.health
      exact not_le.mp h3

/-- The idle session state at full health used by the C2 witness. -/
def sIdle : GameState :=
  { player := initPlayer 800 800, bullets := [], zombies := [], items := [],
    score := 0, lastZombieSpawnTime := 0, isGameOver := false }

/-- Witness for C2 at the concrete idle state and tick. -/
theorem claim2_witness :
    sIdle.player.health ≤ MAX_HEALTH
  ∧ ((updateGame envW inpIdle sIdle).player.health ≤ MAX_HEALTH
     ∧ ((updateGame envW inpIdle sIdle).isGameOver = false →
         0 < (updateGame envW inpIdle sIdle).player.health)) :=
  ⟨by with_unfolding_all decide,
   claim2_health_bounds envW inpIdle sIdle (by with_unfolding_all decide)⟩

/-! Fixtures for the two-tick damage-boost scenario of claim C4: at tick
`now = 1000` the player (no boost active) collects a `damage_boost` item in
the item phase, and a zero-velocity bullet overlaps the zombie in the
collision phase of the same tick; at the next tick (`now = 1016`) a second
bullet overlaps the zombie again. -/

/-- A zombie at (400,400); under `envW.dir = (1,0)` it advances 1.5 in x
per tick: to 401.5 on the first tick and 403 on the second. -/
def zB : Zombie :=
  { x := 400, y := 400, size := 25, initialHealth := 30, health := 30, lastAttackTime := 0 }

/-- The first-tick bullet, placed at the zombie's post-move position. -/
def bB1 : Bullet := { x := 803 / 2, y := 400, size := 5, angle := 0, vx := 0, vy := 0 }

/-- The second-tick bullet, placed at the zombie's post-move position. -/
def bB2 : Bullet := { x := 403, y := 400, size := 5, angle := 0, vx := 0, vy := 0 }

/-- A `damage_boost` item lying on the player `pW`, created at time 1000. -/
def itB : Item := { x := 100, y := 100, size := 15, type := "damage_boost", creationTime := 1000 }

/-- The tick input at time 1000. -/
def inpT1 : TickInput :=
  { now := 1000, moveX := 0, moveY := 0, isFiring := false, aimAngle := 0,
    spawnSide := 0, spawnRoll := 0, drops := noDrops }

/-- The tick input at time 1016. -/
def inpT2 : TickInput := { inpT1 with now := 1016 }

/-- The session state entering the first tick. -/
def sT1 : GameState :=
  { player := pW, bullets := [bB1], zombies := [zB], items := [itB],
    score := 0, lastZombieSpawnTime := 1000, isGameOver := false }

/-- The session state entering the second tick: the first tick's result
with the fresh bullet `bB2` injected. -/
def sT2 : GameState := { updateGame envW inpT1 sT1 with bullets := [bB2] }

/-- Claim C4: `applyUpgrade "damage_boost"` sets only the end timestamp and
leaves `bulletDamageMultiplier` untouched; the whole item phase leaves
`bulletDamageMultiplier` untouched (whatever is collected); the multiplier
is recomputed only by the player update, from the end timestamp against
`now`.  Hence in the concrete two-tick run: collecting the boost during
tick `t = 1000` sets the end timestamp to 11000 but the bullet–zombie hit
later in that same tick still deals `10 × 1 = 10` damage (zombie 30 → 20),
and only the next tick recomputes the multiplier to 1.5 so its hit deals 15
damage (zombie 20 → 5). -/
theorem claim4_damage_boost_deferred (p : Player) (its : List Item) (t : ℤ)
    (env : Env) (inp : TickInput) (bs : List Bullet) :
    (p.applyUpgrade "damage_boost" t).bulletDamageMultiplier = p.bulletDamageMultiplier
  ∧ (p.applyUpgrade "damage_boost" t).damageBoostEndTime = t + UPGRADE_DURATION
  ∧ (itemPhase t p its).1.bulletDamageMultiplier = p.bulletDamageMultiplier
  ∧ (p.update env inp bs).1.bulletDamageMultiplier =
      (if p.damageBoostEndTime > inp.now then DAMAGE_BOOST_MULTIPLIER else 1)
  ∧ (updateGame envW inpT1 sT1).player.damageBoostEndTime = 11000
  ∧ (updateGame envW inpT1 sT1).player.bulletDamageMultiplier = 1
  ∧ (updateGame envW inpT1 sT1).zombies.map Zombie.health = [20]
  ∧ (updateGame envW inpT2 sT2).player.bulletDamageMultiplier = DAMAGE_BOOST_MULTIPLIER
  ∧ (updateGame envW inpT2 sT2).zombies.map Zombie.health = [5] :=
  ⟨applyUpgrade_mult p "damage_boost" t,
   by with_unfolding_all rfl,
   itemPhase_fst_mult t its p,
   update_fst_mult p env inp bs,
   by with_unfolding_all rfl,
   by with_unfolding_all rfl,
   by with_unfolding_all rfl,
   by with_unfolding_all rfl,
   by with_unfolding_all rfl⟩

end ZombieGame
